import Mathlib

/-!
# Verification of the rosetta-sdk-go core: Validator and Fetch Orchestrator

Shallow embedding of the repository's core components:

* the Validator checks over protocol entities (`NetworkIdentifier`,
  `Version`, `Options`, `AccountBalance` and the structural-equality
  helpers `containsCurrency` / `containsAccountIdentifier`);
* the retry loop `AccountBalanceRetry` from `fetcher/account.go`;
* the transport call `NetworkStatus` from `client/api_network.go`.

Go pointers become `Option`, Go `error` results become `Option String`
carrying the error message (`none` = success), and arbitrary metadata
maps become string-keyed association lists.  The asserter implementation
file itself is not among the sources; its checks are modelled from the
spec, with every behaviour that the repository's own tests pin
(`asserter/network_test.go`, `asserter/account_test.go`) followed
exactly as the tests assert it.
-/

namespace Rosetta

/-- Sub-network identifier: a network name plus optional metadata. -/
structure SubNetworkIdentifier where
  network : String
  metadata : Option (List (String × String))
deriving DecidableEq, Repr

/-- Network identifier: blockchain name, network name, optional sub-network. -/
structure NetworkIdentifier where
  blockchain : String
  network : String
  subNetworkIdentifier : Option SubNetworkIdentifier
deriving DecidableEq, Repr

/-- Sub-account identifier: an address plus optional metadata map. -/
structure SubAccountIdentifier where
  address : String
  metadata : Option (List (String × String))
deriving DecidableEq, Repr

/-- Account identifier: an address plus optional sub-account. -/
structure AccountIdentifier where
  address : String
  subAccount : Option SubAccountIdentifier
deriving DecidableEq, Repr

/-- Currency: symbol, decimal precision, optional metadata map. -/
structure Currency where
  symbol : String
  decimals : Int
  metadata : Option (List (String × String))
deriving DecidableEq, Repr

/-- Amount: a decimal-string value bound to a currency. -/
structure Amount where
  value : String
  currency : Currency
deriving DecidableEq, Repr

/-- Balance: an account identifier paired with a list of amounts. -/
structure Balance where
  accountIdentifier : AccountIdentifier
  amounts : List Amount
deriving DecidableEq, Repr

/-- Block identifier: an index and a hash. -/
structure BlockIdentifier where
  index : Int
  hash : String
deriving DecidableEq, Repr

/-- Version: rosetta version, node version, optional middleware version.
The middleware version is a Go string pointer, so `some ""` (present but
empty) is distinct from `none` (absent). -/
structure Version where
  rosettaVersion : String
  nodeVersion : String
  middlewareVersion : Option String
deriving DecidableEq, Repr

/-- One operation status: a label and a success flag. -/
structure OperationStatus where
  status : String
  successful : Bool
deriving DecidableEq, Repr

/-- Options: supported operation statuses and operation types. -/
structure Options where
  operationStatuses : List OperationStatus
  operationTypes : List String
deriving DecidableEq, Repr

/-- Domain error entity returned by the remote node. -/
structure RosettaError where
  code : Int
  message : String
  retriable : Option Bool
deriving DecidableEq, Repr

/-! ## Validator: network checks

Modelled from the spec: the asserter's network checks
(`NetworkIdentifier`, `Version`, `NetworkOptions` in the asserter
package) are not among the sources; only their tests are
(`asserter/network_test.go`).  Each definition follows the spec's
description of the check, and on every input the tests exercise it
returns exactly the error message the tests assert — in particular the
tests pin the empty-blockchain case of the network-identifier check to
the error `"NetworkIdentifier is nil"`, so that is what the model
returns there. -/

/-- Modelled from the spec: sub-network check — if a sub-network is
present its network name must be non-empty (message pinned by the
`"invalid sub_network"` test case). -/
def SubNetworkIdentifierCheck : Option SubNetworkIdentifier → Option String
  | none => none
  | some s =>
    if s.network = "" then some "NetworkIdentifier.SubNetworkIdentifier.Network is missing"
    else none

/-- Modelled from the spec: network-identifier check.  Absent input
fails with `"NetworkIdentifier is nil"`; the `"invalid blockchain"` test
case pins an empty blockchain to that same nil-identifier message; an
empty network fails `"NetworkIdentifier.Network is missing"`; then the
sub-network is checked. -/
def NetworkIdentifierCheck : Option NetworkIdentifier → Option String
  | none => some "NetworkIdentifier is nil"
  | some n =>
    if n.blockchain = "" then some "NetworkIdentifier is nil"
    else if n.network = "" then some "NetworkIdentifier.Network is missing"
    else SubNetworkIdentifierCheck n.subNetworkIdentifier

/-- Modelled from the spec: version check — absent fails, empty node
version fails, and a present-but-empty middleware version fails
(messages pinned by `TestVersion`). -/
def VersionCheck : Option Version → Option String
  | none => some "version is nil"
  | some v =>
    if v.nodeVersion = "" then some "Version.NodeVersion is missing"
    else
      match v.middlewareVersion with
      | some m => if m = "" then some "Version.MiddlewareVersion is missing" else none
      | none => none

/-- Modelled from the spec: options check — absent fails, then empty
status list, then no successful status, then empty type list, in that
order (messages pinned by `TestNetworkOptions`). -/
def NetworkOptionsCheck : Option Options → Option String
  | none => some "options is nil"
  | some o =>
    if o.operationStatuses.isEmpty then some "no Options.OperationStatuses found"
    else if !o.operationStatuses.any (fun s => s.successful) then
      some "no successful Options.OperationStatuses found"
    else if o.operationTypes.isEmpty then some "no Options.OperationTypes found"
    else none

/-! ## Validator: account-balance checks

Modelled from the spec: the asserter's account checks
(`containsCurrency`, `containsAccountIdentifier`, `AccountBalance` and
the block/account field checks they use) are not among the sources; only
their tests are (`asserter/account_test.go`).  Structural equality over
optional metadata maps follows the spec: two maps are equal iff they
have the same key set and each key's value is equal, and absence of a
map is distinct from an empty map. -/

/-- Lookup in a metadata association list (first binding of the key). -/
def lookupMeta (m : List (String × String)) (k : String) : Option String :=
  match m.find? (fun kv => kv.1 = k) with
  | some kv => some kv.2
  | none => none

/-- Modelled from the spec: deep equality of two metadata maps — same
key set, equal value at every key. -/
def metadataEqual (a b : List (String × String)) : Bool :=
  a.all (fun kv => lookupMeta b kv.1 = some kv.2) &&
    b.all (fun kv => lookupMeta a kv.1 = some kv.2)

/-- Modelled from the spec: equality of optional metadata maps; an
absent map is equal only to an absent map. -/
def optMetadataEqual : Option (List (String × String)) → Option (List (String × String)) → Bool
  | none, none => true
  | some a, some b => metadataEqual a b
  | _, _ => false

/-- Modelled from the spec: deep structural equality of currencies —
symbol, decimals and metadata must all match. -/
def currencyEqual (a b : Currency) : Bool :=
  a.symbol = b.symbol && a.decimals = b.decimals && optMetadataEqual a.metadata b.metadata

/-- Modelled from the spec: `containsCurrency` — whether the list holds
a currency structurally equal to the given one. -/
def containsCurrency (currencies : List Currency) (currency : Currency) : Bool :=
  currencies.any (fun c => currencyEqual c currency)

/-- Modelled from the spec: equality of optional sub-accounts — present
sub-accounts match on address and metadata; absence matches absence. -/
def subAccountEqual : Option SubAccountIdentifier → Option SubAccountIdentifier → Bool
  | none, none => true
  | some a, some b => a.address = b.address && optMetadataEqual a.metadata b.metadata
  | _, _ => false

/-- Modelled from the spec: deep structural equality of account
identifiers — address and (optional) sub-account must match. -/
def accountIdentifierEqual (a b : AccountIdentifier) : Bool :=
  a.address = b.address && subAccountEqual a.subAccount b.subAccount

/-- Modelled from the spec: `containsAccountIdentifier` — whether the
list holds an account identifier structurally equal to the given one. -/
def containsAccountIdentifier (identifiers : List AccountIdentifier)
    (identifier : AccountIdentifier) : Bool :=
  identifiers.any (fun i => accountIdentifierEqual i identifier)

/-- Modelled from the spec: block-identifier check — absent fails, empty
hash fails (message pinned by the `"invalid block"` test case), negative
index fails. -/
def BlockIdentifierCheck : Option BlockIdentifier → Option String
  | none => some "BlockIdentifier is nil"
  | some b =>
    if b.hash = "" then some "BlockIdentifier.Hash is missing"
    else if b.index < 0 then some "BlockIdentifier.Index is negative"
    else none

/-- Modelled from the spec: account-identifier field check — absent
fails, empty address fails (message pinned by the
`"invalid account identifier"` test case), and a present sub-account
must have a non-empty address. -/
def AccountIdentifierCheck : Option AccountIdentifier → Option String
  | none => some "Account is nil"
  | some a =>
    if a.address = "" then some "Account.Address is missing"
    else
      match a.subAccount with
      | none => none
      | some s =>
        if s.address = "" then some "Account.SubAccountIdentifier.Address is missing"
        else none

/-- Rendering of a currency used in the duplicate-currency message
(models the Go `%+v` formatting of the currency value). -/
def renderCurrency (c : Currency) : String :=
  "&\x7bSymbol:" ++ c.symbol ++ " Decimals:" ++ toString c.decimals ++ "\x7d"

/-- Rendering of an account identifier used in the duplicate-account
message (models the Go `%+v` formatting of the identifier value). -/
def renderAccountIdentifier (a : AccountIdentifier) : String :=
  "&\x7bAddress:" ++ a.address ++ "\x7d"

/-- Modelled from the spec: scan an amount list, failing when a currency
is used by two amounts (message pinned by the `"duplicate currency"`
test case); `seen` accumulates the currencies already encountered. -/
def assertBalanceAmounts (seen : List Currency) : List Amount → Option String
  | [] => none
  | a :: rest =>
    if containsCurrency seen a.currency then
      some ("currency " ++ renderCurrency a.currency ++ " used in balance multiple times")
    else assertBalanceAmounts (a.currency :: seen) rest

/-- Modelled from the spec: per-entry phase of the account-balance check —
for each balance in input order, validate its account identifier, then
its amount set for duplicate currencies. -/
def checkBalanceEntries : List Balance → Option String
  | [] => none
  | b :: rest =>
    match AccountIdentifierCheck (some b.accountIdentifier) with
    | some e => some e
    | none =>
      match assertBalanceAmounts [] b.amounts with
      | some e => some e
      | none => checkBalanceEntries rest

/-- Modelled from the spec: cross-entry phase of the account-balance
check — fail when two entries share a structurally equal account
identifier (message pinned by the `"duplicate identifier"` test case). -/
def checkDuplicateAccounts (seen : List AccountIdentifier) : List Balance → Option String
  | [] => none
  | b :: rest =>
    if containsAccountIdentifier seen b.accountIdentifier then
      some ("account identifier " ++ renderAccountIdentifier b.accountIdentifier ++
        " used in balance multiple times")
    else checkDuplicateAccounts (b.accountIdentifier :: seen) rest

/-- Modelled from the spec: `AccountBalance` — validate the block first,
then each entry's account and amount set in input order, then the
cross-entry duplicate-account condition. -/
def AccountBalanceCheck (block : Option BlockIdentifier) (balances : List Balance) :
    Option String :=
  match BlockIdentifierCheck block with
  | some e => some e
  | none =>
    match checkBalanceEntries balances with
    | some e => some e
    | none => checkDuplicateAccounts [] balances

/-! ## Fetch Orchestrator: `AccountBalanceRetry` (`fetcher/account.go`)

The retry loop is embedded with its environment made explicit:

* `ctxErr i` is the value of `ctx.Err()` at the top of the `i`-th loop
  iteration (`none` = context alive);
* `attempt i` is the result of the `i`-th call to the validated
  `AccountBalance` (the Transport composed with the Validator);
* `tryAgainFn s i e` is the result of `tryAgain` for context string `s`
  at the `i`-th failed attempt on error `e` (the backoff state is
  abstracted by the attempt index; `tryAgain`'s own code is not among
  the sources, so the loop is proved for every such function);
* `account` is the `*types.AccountIdentifier` argument (`none` = nil
  pointer); a failed attempt evaluates `account.Address`, which on a nil
  pointer is a nil-pointer dereference, modelled as the `nilPanic`
  outcome;
* `fuel` bounds the number of iterations the embedding unfolds (the Go
  loop's termination is delegated to `tryAgain`'s backoff bounds);
  running out of fuel yields `none`.

The result pairs the outcome with the number of calls made to the
validated `AccountBalance` (the Transport-call count). -/

/-- Result of one call to the validated `AccountBalance`. -/
inductive AttemptResult where
  | ok : BlockIdentifier → List Balance → AttemptResult
  | err : String → AttemptResult
deriving DecidableEq, Repr

/-- Outcome of `AccountBalanceRetry`. -/
inductive RetryOutcome where
  | ok : BlockIdentifier → List Balance → RetryOutcome
  | err : String → RetryOutcome
  | nilPanic : RetryOutcome
deriving DecidableEq, Repr

/-- The loop of `AccountBalanceRetry`, starting at iteration `i`:
`for ctx.Err() == nil { ... }` followed by
`return nil, nil, errors.New("exhausted retries for account")`. -/
def accountBalanceRetryAux (ctxErr : Nat → Option String) (attempt : Nat → AttemptResult)
    (tryAgainFn : String → Nat → String → Bool) (account : Option AccountIdentifier) :
    Nat → Nat → Option (RetryOutcome × Nat)
  | 0, _ => none
  | fuel + 1, i =>
    match ctxErr i with
    | some _ => some (RetryOutcome.err "exhausted retries for account", i)
    | none =>
      match attempt i with
      | AttemptResult.ok b bals => some (RetryOutcome.ok b bals, i + 1)
      | AttemptResult.err e =>
        match account with
        | none => some (RetryOutcome.nilPanic, i + 1)
        | some acct =>
          if tryAgainFn ("account " ++ acct.address) i e then
            accountBalanceRetryAux ctxErr attempt tryAgainFn account fuel (i + 1)
          else
            some (RetryOutcome.err "exhausted retries for account", i + 1)

/-- `AccountBalanceRetry`: run the retry loop from the first iteration. -/
def accountBalanceRetry (ctxErr : Nat → Option String) (attempt : Nat → AttemptResult)
    (tryAgainFn : String → Nat → String → Bool) (account : Option AccountIdentifier)
    (fuel : Nat) : Option (RetryOutcome × Nat) :=
  accountBalanceRetryAux ctxErr attempt tryAgainFn account fuel 0

/-- Whether a retry run ended in the nil-pointer-dereference outcome. -/
def isNilPanic : Option (RetryOutcome × Nat) → Bool
  | some (RetryOutcome.nilPanic, _) => true
  | _ => false

/-! ## Transport call: `NetworkStatus` (`client/api_network.go`)

The generated client call is embedded with its collaborators explicit:
request preparation, the HTTP round trip, body reading and the two JSON
decoders are inputs, and the function mirrors the Go control flow branch
by branch.  Its Go result is the triple
`(*types.NetworkStatusResponse, *types.Error, error)`. -/

/-- Network-status response entity (contents irrelevant to the
transport-layer claims). -/
structure NetworkStatusResponse where
  currentBlockIdentifier : BlockIdentifier
  genesisBlockIdentifier : BlockIdentifier
deriving DecidableEq, Repr

/-- An HTTP response: status code and raw body. -/
structure HTTPResponse where
  statusCode : Nat
  body : String
deriving DecidableEq, Repr

/-- Environment of one `NetworkStatus` call: results of the steps that
precede decoding, and the two decoders for the body. -/
structure NetworkStatusEnv where
  prepareErr : Option String
  callResult : Except String (Option HTTPResponse)
  readErr : Option String
  decodeError : String → Except String RosettaError
  decodeResponse : String → Except String NetworkStatusResponse

/-- Models `fmt.Errorf("%+v", v)` on the decoded domain error: the
transport-error slot is filled with a formatted rendering of `v`. -/
def renderRosettaError (v : RosettaError) : String :=
  "&\x7bCode:" ++ toString v.code ++ " Message:" ++ v.message ++ "\x7d"

/-- `NetworkStatus`: returns `(response?, domainError?, transportError?)`
following `client/api_network.go` branch by branch — preparation error,
transport error or absent response, read error; then on a non-OK status
code the body is decoded as a domain `Error` (returned together with its
formatted rendering as the transport error), and only on status 200 is
the body decoded as a `NetworkStatusResponse`. -/
def networkStatus (env : NetworkStatusEnv) :
    Option NetworkStatusResponse × Option RosettaError × Option String :=
  match env.prepareErr with
  | some e => (none, none, some e)
  | none =>
    match env.callResult with
    | Except.error e => (none, none, some e)
    | Except.ok none => (none, none, none)
    | Except.ok (some resp) =>
      match env.readErr with
      | some e => (none, none, some e)
      | none =>
        if resp.statusCode ≠ 200 then
          match env.decodeError resp.body with
          | Except.error e => (none, none, some e)
          | Except.ok v => (none, some v, some (renderRosettaError v))
        else
          match env.decodeResponse resp.body with
          | Except.error e => (none, none, some e)
          | Except.ok v => (some v, none, none)

/-- Whether `sub` occurs as a contiguous run inside `l`. -/
def occursInChars (sub l : List Char) : Bool :=
  (List.range (l.length + 1)).any (fun i => (l.drop i).take sub.length = sub)

/-- Whether the string `sub` occurs as a substring of `s`. -/
def occursIn (sub s : String) : Bool :=
  occursInChars sub.toList s.toList

/-! ## Metadata maps: key sets and per-key values

The spec's phrasing of deep map equality — same key set, equal value at
every key — is stated as a predicate and proved equivalent to the
model's `metadataEqual` on well-formed maps (no repeated keys, as in a
Go map). -/

/-- A metadata association list has pairwise-distinct keys (every Go map
satisfies this). -/
def NodupKeys (m : List (String × String)) : Prop :=
  (m.map Prod.fst).Nodup

/-- Well-formedness of an optional metadata map. -/
def OptNodupKeys : Option (List (String × String)) → Prop
  | none => True
  | some m => NodupKeys m

/-- The spec's wording of deep map equality: the two maps have the same
key set, and at every key their values are equal. -/
def sameKeysAndValues (a b : List (String × String)) : Prop :=
  (∀ k, (lookupMeta a k).isSome ↔ (lookupMeta b k).isSome) ∧
    ∀ k v w, lookupMeta a k = some v → lookupMeta b k = some w → v = w

/-- The spec's deep equality lifted to optional maps: absence equals
only absence. -/
def optSameKeysAndValues :
    Option (List (String × String)) → Option (List (String × String)) → Prop
  | none, none => True
  | some a, some b => sameKeysAndValues a b
  | _, _ => False

/-- The spec's account-identifier equality on the optional sub-account:
addresses match and the sub-account metadata maps are deeply equal. -/
def optSubAccountSame : Option SubAccountIdentifier → Option SubAccountIdentifier → Prop
  | none, none => True
  | some x, some y => x.address = y.address ∧ optSameKeysAndValues x.metadata y.metadata
  | _, _ => False

/-- Well-formedness of an optional sub-account's metadata. -/
def OptSubAccountNodup : Option SubAccountIdentifier → Prop
  | none => True
  | some s => OptNodupKeys s.metadata

theorem lookupMeta_of_mem {m : List (String × String)} {k v : String}
    (hmem : (k, v) ∈ m) (hnd : NodupKeys m) : lookupMeta m k = some v := by
  induction m with
  | nil => cases hmem
  | cons kv rest ih =>
    have hnd' : NodupKeys rest := (List.nodup_cons.mp hnd).2
    rcases List.mem_cons.mp hmem with heq | hmem'
    · rw [← heq]
      simp [lookupMeta]
    · have hk : kv.1 ≠ k := by
        intro hkk
        refine (List.nodup_cons.mp hnd).1 ?_
        rw [hkk]
        exact List.mem_map_of_mem Prod.fst hmem'
      have hstep : (kv :: rest).find? (fun p => p.1 = k) = rest.find? (fun p => p.1 = k) :=
        List.find?_cons_of_neg _ (by simpa using hk)
      simpa [lookupMeta, hstep] using ih hmem' hnd'

theorem mem_of_lookupMeta {m : List (String × String)} {k v : String}
    (h : lookupMeta m k = some v) : (k, v) ∈ m := by
  unfold lookupMeta at h
  match hf : m.find? (fun p => p.1 = k) with
  | none => rw [hf] at h; cases h
  | some kv =>
    rw [hf] at h
    have hmem : kv ∈ m := List.mem_of_find?_eq_some hf
    have hp := List.find?_some hf
    have hk : kv.1 = k := by simpa using hp
    have hv : kv.2 = v := by
      match kv, h with
      | (_, _), rfl => rfl
    have hkv : kv = (k, v) := by
      match kv, hk, hv with
      | (_, _), rfl, rfl => rfl
    rw [← hkv]
    exact hmem

theorem metadataEqual_eq_true_iff {a b : List (String × String)}
    (ha : NodupKeys a) (hb : NodupKeys b) :
    metadataEqual a b = true ↔ sameKeysAndValues a b := by
  simp only [metadataEqual, Bool.and_eq_true, List.all_eq_true, decide_eq_true_eq]
  constructor
  · rintro ⟨h1, h2⟩
    refine ⟨fun k => ⟨fun hk => ?_, fun hk => ?_⟩, fun k v w hv hw => ?_⟩
    · match hv : lookupMeta a k with
      | none => rw [hv] at hk; cases hk
      | some v =>
        have := h1 (k, v) (mem_of_lookupMeta hv)
        simp only [this, Option.isSome_some]
    · match hv : lookupMeta b k with
      | none => rw [hv] at hk; cases hk
      | some v =>
        have := h2 (k, v) (mem_of_lookupMeta hv)
        simp only [this, Option.isSome_some]
    · have := h1 (k, v) (mem_of_lookupMeta hv)
      rw [this] at hw
      exact (Option.some.injEq _ _).mp hw
  · rintro ⟨hsome, hval⟩
    constructor
    · intro kv hkv
      have hak : lookupMeta a kv.1 = some kv.2 := lookupMeta_of_mem hkv ha
      have : (lookupMeta b kv.1).isSome := (hsome kv.1).mp (by simp [hak])
      match hbk : lookupMeta b kv.1 with
      | none => rw [hbk] at this; cases this
      | some w => rw [hval kv.1 kv.2 w hak hbk]
    · intro kv hkv
      have hbk : lookupMeta b kv.1 = some kv.2 := lookupMeta_of_mem hkv hb
      have : (lookupMeta a kv.1).isSome := (hsome kv.1).mpr (by simp [hbk])
      match hak : lookupMeta a kv.1 with
      | none => rw [hak] at this; cases this
      | some w => rw [← hval kv.1 w kv.2 hak hbk]

theorem metadataEqual_self {m : List (String × String)} (h : NodupKeys m) :
    metadataEqual m m = true := by
  simp only [metadataEqual, Bool.and_eq_true, List.all_eq_true, decide_eq_true_eq]
  exact ⟨fun kv hkv => lookupMeta_of_mem hkv h, fun kv hkv => lookupMeta_of_mem hkv h⟩

theorem optMetadataEqual_eq_true_iff {x y : Option (List (String × String))}
    (hx : OptNodupKeys x) (hy : OptNodupKeys y) :
    optMetadataEqual x y = true ↔ optSameKeysAndValues x y := by
  match x, y with
  | none, none => simp [optMetadataEqual, optSameKeysAndValues]
  | none, some b => simp [optMetadataEqual, optSameKeysAndValues]
  | some a, none => simp [optMetadataEqual, optSameKeysAndValues]
  | some a, some b =>
    simpa [optMetadataEqual, optSameKeysAndValues] using metadataEqual_eq_true_iff hx hy

theorem optMetadataEqual_self {x : Option (List (String × String))}
    (hx : OptNodupKeys x) : optMetadataEqual x x = true := by
  match x with
  | none => rfl
  | some m => simpa [optMetadataEqual] using metadataEqual_self hx

theorem currencyEqual_self {c : Currency} (h : OptNodupKeys c.metadata) :
    currencyEqual c c = true := by
  simp [currencyEqual, optMetadataEqual_self h]

/-! ## Theorems -/

/-- C5: on well-formed metadata (distinct keys, as in any Go map),
currency equality holds iff symbol and decimals match and the optional
metadata maps have the same key set with equal values per key;
account-identifier equality holds iff the addresses match and the
optional sub-accounts match on address and deep metadata equality;
`containsCurrency` finds a currency in any list containing an identical
copy; and the concrete pairs differing only in a metadata value — two
`BTC/8` currencies with `blah` bound to `hello` versus `bye`, and two
`acct1/subacct1` identifiers with the same two bindings — are distinct. -/
theorem structuralEquality_spec :
    (∀ a b : Currency, OptNodupKeys a.metadata → OptNodupKeys b.metadata →
      (currencyEqual a b = true ↔
        a.symbol = b.symbol ∧ a.decimals = b.decimals ∧
          optSameKeysAndValues a.metadata b.metadata)) ∧
    (∀ a b : AccountIdentifier,
      OptSubAccountNodup a.subAccount → OptSubAccountNodup b.subAccount →
      (accountIdentifierEqual a b = true ↔
        a.address = b.address ∧ optSubAccountSame a.subAccount b.subAccount)) ∧
    (∀ (cs : List Currency) (c : Currency), c ∈ cs → OptNodupKeys c.metadata →
      containsCurrency cs c = true) ∧
    (containsCurrency [⟨"BTC", 8, some [("blah", "hello")]⟩]
      ⟨"BTC", 8, some [("blah", "bye")]⟩ = false) ∧
    (containsAccountIdentifier [⟨"acct1", some ⟨"subacct1", some [("blah", "hello")]⟩⟩]
      ⟨"acct1", some ⟨"subacct1", some [("blah", "bye")]⟩⟩ = false) := by
  refine ⟨?_, ?_, ?_, by decide, by decide⟩
  · intro a b ha hb
    simp only [currencyEqual, Bool.and_eq_true, decide_eq_true_eq, and_assoc]
    exact and_congr_right fun _ => and_congr_right fun _ =>
      optMetadataEqual_eq_true_iff ha hb
  · intro a b ha hb
    simp only [accountIdentifierEqual, Bool.and_eq_true, decide_eq_true_eq]
    refine and_congr_right fun _ => ?_
    match hsa : a.subAccount, hsb : b.subAccount with
    | none, none => simp [subAccountEqual, optSubAccountSame]
    | none, some y => simp [subAccountEqual, optSubAccountSame]
    | some x, none => simp [subAccountEqual, optSubAccountSame]
    | some x, some y =>
      rw [hsa] at ha
      rw [hsb] at hb
      simp only [subAccountEqual, optSubAccountSame, Bool.and_eq_true, decide_eq_true_eq]
      exact and_congr_right fun _ => optMetadataEqual_eq_true_iff ha hb
  · intro cs c hmem hwf
    simp only [containsCurrency, List.any_eq_true]
    exact ⟨c, hmem, currencyEqual_self hwf⟩

/-- C5 (witness): the characterization applied to concrete values — the
currency `BTC/8` with metadata `blah ↦ hello` is found in a list
containing an identical copy, and currency equality at two such
identical values follows from the same-keys-same-values relation. -/
theorem structuralEquality_spec_witness :
    containsCurrency
      [⟨"ERX", 6, none⟩, ⟨"BTC", 8, some [("blah", "hello")]⟩]
      ⟨"BTC", 8, some [("blah", "hello")]⟩ = true :=
  structuralEquality_spec.2.2.1
    [⟨"ERX", 6, none⟩, ⟨"BTC", 8, some [("blah", "hello")]⟩]
    ⟨"BTC", 8, some [("blah", "hello")]⟩ (by decide) (by simp [OptNodupKeys, NodupKeys])

/-- C2 (counterexample): on a network identifier with an empty
blockchain and a non-empty network, the check returns the nil-identifier
error `"NetworkIdentifier is nil"`, which is not a
`"NetworkIdentifier.Blockchain is missing"` field-missing error —
exactly as the repository's own `"invalid blockchain"` test case
asserts, contradicting the claim. -/
theorem NetworkIdentifierCheck_empty_blockchain_gives_nil_error :
    NetworkIdentifierCheck (some ⟨"", "mainnet", none⟩) = some "NetworkIdentifier is nil" ∧
      "NetworkIdentifier is nil" ≠ "NetworkIdentifier.Blockchain is missing" := by
  exact ⟨rfl, by decide⟩

/-- C2 (amended): the check fails `IdentifierNil` exactly when the input
is absent or the blockchain string is empty (the two cases share the one
`"NetworkIdentifier is nil"` error); with a non-empty blockchain it
fails `FieldMissing(Network)` on an empty network; with both non-empty
it fails `FieldMissing(SubNetwork.Network)` when a sub-network is
present with an empty network name; and it passes exactly when
blockchain and network are non-empty and any present sub-network has a
non-empty network name. -/
theorem NetworkIdentifierCheck_spec :
    (NetworkIdentifierCheck none = some "NetworkIdentifier is nil") ∧
    (∀ n : NetworkIdentifier, n.blockchain = "" →
      NetworkIdentifierCheck (some n) = some "NetworkIdentifier is nil") ∧
    (∀ n : NetworkIdentifier, n.blockchain ≠ "" → n.network = "" →
      NetworkIdentifierCheck (some n) = some "NetworkIdentifier.Network is missing") ∧
    (∀ (n : NetworkIdentifier) (s : SubNetworkIdentifier), n.blockchain ≠ "" → n.network ≠ "" →
      n.subNetworkIdentifier = some s → s.network = "" →
      NetworkIdentifierCheck (some n) =
        some "NetworkIdentifier.SubNetworkIdentifier.Network is missing") ∧
    (∀ n : NetworkIdentifier,
      NetworkIdentifierCheck (some n) = none ↔
        n.blockchain ≠ "" ∧ n.network ≠ "" ∧
          ∀ s : SubNetworkIdentifier, n.subNetworkIdentifier = some s → s.network ≠ "") := by
  refine ⟨rfl, ?_, ?_, ?_, ?_⟩
  · intro n hb
    simp [NetworkIdentifierCheck, hb]
  · intro n hb hn
    simp [NetworkIdentifierCheck, hb, hn]
  · intro n s hb hn hs hsn
    simp [NetworkIdentifierCheck, SubNetworkIdentifierCheck, hb, hn, hs, hsn]
  · intro n
    by_cases hb : n.blockchain = ""
    · simp [NetworkIdentifierCheck, hb]
    · by_cases hn : n.network = ""
      · simp [NetworkIdentifierCheck, hb, hn]
      · match hs : n.subNetworkIdentifier with
        | none => simp [NetworkIdentifierCheck, SubNetworkIdentifierCheck, hb, hn, hs]
        | some s =>
          by_cases hsn : s.network = "" <;>
            simp [NetworkIdentifierCheck, SubNetworkIdentifierCheck, hb, hn, hs, hsn]

/-- C2 (witness): the amended characterization applied to the concrete
valid identifier `{bitcoin, mainnet}`. -/
theorem NetworkIdentifierCheck_spec_witness :
    NetworkIdentifierCheck (some ⟨"bitcoin", "mainnet", none⟩) = none :=
  (NetworkIdentifierCheck_spec.2.2.2.2 ⟨"bitcoin", "mainnet", none⟩).mpr
    ⟨by decide, by decide, by intro s hs; cases hs⟩

/-- C4: `AccountBalance` validates in deterministic order — an invalid
block (index 1, empty hash) fails `"BlockIdentifier.Hash is missing"`
before any balance is inspected (for every balance list); a failing
account identifier of the first entry is reported before that entry's
amounts are inspected (for every amount list); an entry whose amount set
repeats a currency and whose account duplicates an earlier entry is
reported as a duplicate currency, the per-entry check coming before the
cross-entry one; the tests' duplicate-currency, duplicate-account and
invalid-account cases produce their respective errors; and the valid
block `{1000, jsakdl}` with the single balance `acct1 ↦ [100 BTC/8]`
passes. -/
theorem AccountBalanceCheck_spec :
    (∀ balances : List Balance,
      AccountBalanceCheck (some ⟨1, ""⟩) balances = some "BlockIdentifier.Hash is missing") ∧
    (∀ (block : Option BlockIdentifier) (acct : AccountIdentifier) (e : String)
        (amounts : List Amount) (rest : List Balance),
      BlockIdentifierCheck block = none → AccountIdentifierCheck (some acct) = some e →
      AccountBalanceCheck block (⟨acct, amounts⟩ :: rest) = some e) ∧
    (AccountBalanceCheck (some ⟨1000, "jsakdl"⟩)
        [⟨⟨"acct1", none⟩, [⟨"100", ⟨"BTC", 8, none⟩⟩]⟩,
         ⟨⟨"acct1", none⟩, [⟨"100", ⟨"BTC", 8, none⟩⟩, ⟨"50", ⟨"BTC", 8, none⟩⟩]⟩] =
      some ("currency " ++ renderCurrency ⟨"BTC", 8, none⟩ ++
        " used in balance multiple times")) ∧
    (AccountBalanceCheck (some ⟨1000, "jsakdl"⟩)
        [⟨⟨"acct1", none⟩, [⟨"100", ⟨"BTC", 8, none⟩⟩, ⟨"100", ⟨"BTC", 8, none⟩⟩]⟩] =
      some ("currency " ++ renderCurrency ⟨"BTC", 8, none⟩ ++
        " used in balance multiple times")) ∧
    (AccountBalanceCheck (some ⟨1000, "jsakdl"⟩)
        [⟨⟨"acct1", none⟩, [⟨"100", ⟨"BTC", 8, none⟩⟩]⟩,
         ⟨⟨"acct1", none⟩, [⟨"100", ⟨"BTC", 8, none⟩⟩]⟩] =
      some ("account identifier " ++ renderAccountIdentifier ⟨"acct1", none⟩ ++
        " used in balance multiple times")) ∧
    (AccountBalanceCheck (some ⟨1000, "jsakdl"⟩)
        [⟨⟨"", none⟩, [⟨"100", ⟨"BTC", 8, none⟩⟩]⟩] = some "Account.Address is missing") ∧
    (AccountBalanceCheck (some ⟨1000, "jsakdl"⟩)
        [⟨⟨"acct1", none⟩, [⟨"100", ⟨"BTC", 8, none⟩⟩]⟩] = none) := by
  refine ⟨fun balances => rfl, ?_, by decide, by decide, by decide, by decide, by decide⟩
  intro block acct e amounts rest hblock hacct
  simp [AccountBalanceCheck, checkBalanceEntries, hblock, hacct]

/-- C4 (witness): the per-entry account check applied at a concrete
invalid first entry — the account error is reported whatever the
amounts. -/
theorem AccountBalanceCheck_spec_witness :
    AccountBalanceCheck (some ⟨2, "abc"⟩)
      [⟨⟨"", none⟩, [⟨"5", ⟨"ETH", 18, none⟩⟩, ⟨"5", ⟨"ETH", 18, none⟩⟩]⟩] =
      some "Account.Address is missing" :=
  AccountBalanceCheck_spec.2.1 (some ⟨2, "abc"⟩) ⟨"", none⟩ "Account.Address is missing"
    [⟨"5", ⟨"ETH", 18, none⟩⟩, ⟨"5", ⟨"ETH", 18, none⟩⟩] [] (by decide) (by decide)

/-- C6: the version check fails exactly when the value is absent, the
node version is empty, or the middleware version is present but empty;
moreover a present-but-empty middleware version (with a non-empty node
version) fails with the `MiddlewareVersion` field-missing error, so a
present non-empty middleware version passes and an absent one passes. -/
theorem VersionCheck_spec :
    (∀ v : Option Version,
      VersionCheck v ≠ none ↔
        v = none ∨ ∃ w : Version, v = some w ∧
          (w.nodeVersion = "" ∨ w.middlewareVersion = some "")) ∧
    (∀ w : Version, w.nodeVersion ≠ "" → w.middlewareVersion = some "" →
      VersionCheck (some w) = some "Version.MiddlewareVersion is missing") := by
  constructor
  · intro v
    match v with
    | none => simp [VersionCheck]
    | some w =>
      by_cases hn : w.nodeVersion = ""
      · simp [VersionCheck, hn]
      · match hm : w.middlewareVersion with
        | none => simp [VersionCheck, hn, hm]
        | some m =>
          by_cases he : m = "" <;> simp [VersionCheck, hn, hm, he]
  · intro w hn hm
    simp [VersionCheck, hn, hm]

/-- C6 (witness): a version whose middleware slot is present but empty
fails the middleware field-missing check. -/
theorem VersionCheck_spec_witness :
    VersionCheck (some ⟨"1.2.4", "1.0", some ""⟩) = some "Version.MiddlewareVersion is missing" :=
  VersionCheck_spec.2 ⟨"1.2.4", "1.0", some ""⟩ (by decide) rfl

/-- C7: the options check reports, in priority order, an empty status
list (whatever the rest of the value), then absence of a successful
status (whatever the type list), then an empty type list; the concrete
options with statuses `SUCCESS:true, FAILURE:false` and types
`["PAYMENT"]` pass. -/
theorem NetworkOptionsCheck_spec :
    (∀ o : Options, o.operationStatuses = [] →
      NetworkOptionsCheck (some o) = some "no Options.OperationStatuses found") ∧
    (∀ o : Options, o.operationStatuses ≠ [] →
      o.operationStatuses.any (fun s => s.successful) = false →
      NetworkOptionsCheck (some o) = some "no successful Options.OperationStatuses found") ∧
    (∀ o : Options, o.operationStatuses.any (fun s => s.successful) = true →
      o.operationTypes = [] →
      NetworkOptionsCheck (some o) = some "no Options.OperationTypes found") ∧
    NetworkOptionsCheck
      (some ⟨[⟨"SUCCESS", true⟩, ⟨"FAILURE", false⟩], ["PAYMENT"]⟩) = none := by
  refine ⟨?_, ?_, ?_, by decide⟩
  · intro o h
    simp [NetworkOptionsCheck, h, List.isEmpty_iff]
  · intro o h hs
    have hne : o.operationStatuses.isEmpty = false := by
      simpa [List.isEmpty_iff] using h
    simp [NetworkOptionsCheck, hne, hs]
  · intro o hs ht
    have hne : o.operationStatuses.isEmpty = false := by
      match he : o.operationStatuses with
      | [] => rw [he] at hs; simp at hs
      | a :: rest => rfl
    simp [NetworkOptionsCheck, hne, hs, ht, List.isEmpty_iff]

/-- C7 (witness): an options value with statuses present but none
successful and an empty type list fails the no-successful-status check,
the earlier of the two violated invariants. -/
theorem NetworkOptionsCheck_spec_witness :
    NetworkOptionsCheck (some ⟨[⟨"FAILURE", false⟩], []⟩) =
      some "no successful Options.OperationStatuses found" :=
  NetworkOptionsCheck_spec.2.1 ⟨[⟨"FAILURE", false⟩], []⟩ (by decide) (by decide)

/-- C1 (counterexample): a run whose context is already cancelled before
the first attempt performs zero calls to the validated `AccountBalance`
but returns the very same `"exhausted retries for account"` error value
that a genuine budget-exhaustion run returns — there is no distinct
cancellation failure. -/
theorem accountBalanceRetry_cancelled_counterexample :
    accountBalanceRetry (fun _ => some "context canceled")
        (fun _ => AttemptResult.err "boom") (fun _ _ _ => true) (some ⟨"acct1", none⟩) 5 =
      some (RetryOutcome.err "exhausted retries for account", 0) ∧
    accountBalanceRetry (fun _ => none)
        (fun _ => AttemptResult.err "boom") (fun _ _ _ => false) (some ⟨"acct1", none⟩) 5 =
      some (RetryOutcome.err "exhausted retries for account", 1) :=
  ⟨rfl, rfl⟩

/-- C1 (amended): whenever the cancellation signal is observed at the
top of the first iteration, `AccountBalanceRetry` performs zero
Transport calls but returns the same `"exhausted retries for account"`
error that budget exhaustion returns, not a distinct cancellation
failure. -/
theorem accountBalanceRetry_cancelled_spec :
    ∀ (ctxErr : Nat → Option String) (attempt : Nat → AttemptResult)
      (tryAgainFn : String → Nat → String → Bool) (account : Option AccountIdentifier)
      (e : String) (fuel : Nat), 0 < fuel → ctxErr 0 = some e →
      accountBalanceRetry ctxErr attempt tryAgainFn account fuel =
        some (RetryOutcome.err "exhausted retries for account", 0) := by
  intro ctxErr attempt tryAgainFn account e fuel hf h
  match fuel, hf with
  | fuel + 1, _ => simp [accountBalanceRetry, accountBalanceRetryAux, h]

/-- C1 (amended, witness): a concrete pre-cancelled run returns the
exhaustion error after zero Transport calls. -/
theorem accountBalanceRetry_cancelled_spec_witness :
    accountBalanceRetry (fun _ => some "context canceled")
        (fun _ => AttemptResult.ok ⟨0, "h"⟩ []) (fun _ _ _ => true) (some ⟨"acct1", none⟩) 3 =
      some (RetryOutcome.err "exhausted retries for account", 0) :=
  accountBalanceRetry_cancelled_spec (fun _ => some "context canceled")
    (fun _ => AttemptResult.ok ⟨0, "h"⟩ []) (fun _ _ _ => true) (some ⟨"acct1", none⟩)
    "context canceled" 3 (by decide) rfl

/-- C3 (counterexample): two exhausted runs that differ in the account
address (`acct1` vs `acct2`) and in the last underlying error (`boom`
vs `zap`) return the identical terminal error, whose message contains
neither the address nor the last error — so the terminal failure
references no request context and retains nothing of the last error. -/
theorem accountBalanceRetry_exhaustion_counterexample :
    accountBalanceRetry (fun _ => none) (fun _ => AttemptResult.err "boom")
        (fun _ _ _ => false) (some ⟨"acct1", none⟩) 5 =
      some (RetryOutcome.err "exhausted retries for account", 1) ∧
    accountBalanceRetry (fun _ => none) (fun _ => AttemptResult.err "zap")
        (fun _ _ _ => false) (some ⟨"acct2", none⟩) 5 =
      some (RetryOutcome.err "exhausted retries for account", 1) ∧
    occursIn "acct1" "exhausted retries for account" = false ∧
    occursIn "boom" "exhausted retries for account" = false :=
  ⟨rfl, rfl, by decide, by decide⟩

theorem accountBalanceRetryAux_err_const (ctxErr : Nat → Option String)
    (attempt : Nat → AttemptResult) (tryAgainFn : String → Nat → String → Bool)
    (account : Option AccountIdentifier) :
    ∀ (fuel i n : Nat) (s : String),
      accountBalanceRetryAux ctxErr attempt tryAgainFn account fuel i =
        some (RetryOutcome.err s, n) → s = "exhausted retries for account" := by
  intro fuel
  induction fuel with
  | zero => intro i n s h; cases h
  | succ fuel ih =>
    intro i n s h
    rw [accountBalanceRetryAux] at h
    split at h
    · simp only [Option.some.injEq, Prod.mk.injEq, RetryOutcome.err.injEq] at h
      exact h.1.symm
    · split at h
      · simp at h
      · split at h
        · simp at h
        · split at h
          · exact ih (_ + 1) n s h
          · simp only [Option.some.injEq, Prod.mk.injEq, RetryOutcome.err.injEq] at h
            exact h.1.symm

/-- C3 (amended): the terminal retries-exhausted failure is the fixed
error `"exhausted retries for account"` — it names the operation but is
the same whatever the account address and whatever the last underlying
error (so it neither embeds the address nor wraps the last error), and
it is distinct from any last error whose message differs from that fixed
string: whenever the budget is exhausted on the first failed attempt the
run returns exactly that error, and every erroring run returns it. -/
theorem accountBalanceRetry_exhaustion_spec :
    (∀ (ctxErr : Nat → Option String) (attempt : Nat → AttemptResult)
        (tryAgainFn : String → Nat → String → Bool) (acct : AccountIdentifier)
        (e : String) (fuel : Nat),
      0 < fuel → ctxErr 0 = none → attempt 0 = AttemptResult.err e →
      tryAgainFn ("account " ++ acct.address) 0 e = false →
      accountBalanceRetry ctxErr attempt tryAgainFn (some acct) fuel =
        some (RetryOutcome.err "exhausted retries for account", 1)) ∧
    (∀ (ctxErr : Nat → Option String) (attempt : Nat → AttemptResult)
        (tryAgainFn : String → Nat → String → Bool) (account : Option AccountIdentifier)
        (fuel n : Nat) (s : String),
      accountBalanceRetry ctxErr attempt tryAgainFn account fuel =
        some (RetryOutcome.err s, n) → s = "exhausted retries for account") := by
  constructor
  · intro ctxErr attempt tryAgainFn acct e fuel hf hc ha ht
    match fuel, hf with
    | fuel + 1, _ =>
      simp [accountBalanceRetry, accountBalanceRetryAux, hc, ha, ht]
  · intro ctxErr attempt tryAgainFn account fuel n s h
    exact accountBalanceRetryAux_err_const ctxErr attempt tryAgainFn account fuel 0 n s h

/-- C3 (amended, witness): a concrete first-attempt exhaustion run
returns the fixed terminal error. -/
theorem accountBalanceRetry_exhaustion_spec_witness :
    accountBalanceRetry (fun _ => none) (fun _ => AttemptResult.err "connection reset")
        (fun _ _ _ => false) (some ⟨"acct9", none⟩) 4 =
      some (RetryOutcome.err "exhausted retries for account", 1) :=
  accountBalanceRetry_exhaustion_spec.1 (fun _ => none)
    (fun _ => AttemptResult.err "connection reset") (fun _ _ _ => false) ⟨"acct9", none⟩
    "connection reset" 4 (by decide) rfl rfl rfl

theorem accountBalanceRetryAux_no_panic_of_some (ctxErr : Nat → Option String)
    (attempt : Nat → AttemptResult) (tryAgainFn : String → Nat → String → Bool)
    (acct : AccountIdentifier) :
    ∀ fuel i : Nat,
      isNilPanic (accountBalanceRetryAux ctxErr attempt tryAgainFn (some acct) fuel i) =
        false := by
  intro fuel
  induction fuel with
  | zero => intro i; rfl
  | succ fuel ih =>
    intro i
    rw [accountBalanceRetryAux]
    split
    · rfl
    · split
      · rfl
      · split
        · rename_i heq
          cases heq
        · split
          · exact ih (i + 1)
          · rfl

/-- C10: `AccountBalanceRetry` dereferences `account.Address` whenever
an attempt fails, so with a nil account a failing first attempt ends in
a nil-pointer dereference after one Transport call — the operation is
not total on absent accounts — while with a present account no run ever
reaches the dereference panic. -/
theorem accountBalanceRetry_nil_account_spec :
    (accountBalanceRetry (fun _ => none) (fun _ => AttemptResult.err "boom")
        (fun _ _ _ => true) none 5 = some (RetryOutcome.nilPanic, 1)) ∧
    (∀ (ctxErr : Nat → Option String) (attempt : Nat → AttemptResult)
        (tryAgainFn : String → Nat → String → Bool) (acct : AccountIdentifier) (fuel : Nat),
      isNilPanic (accountBalanceRetry ctxErr attempt tryAgainFn (some acct) fuel) = false) :=
  ⟨rfl, fun ctxErr attempt tryAgainFn acct fuel =>
    accountBalanceRetryAux_no_panic_of_some ctxErr attempt tryAgainFn acct fuel 0⟩

/-- C8: on a non-success status code the body is decoded as a domain
`Error` and that error is returned to the caller (when it decodes);
the response decoder is never consulted on a non-success status (the
result is the same for every response decoder); and only on status 200
is the body decoded as a `NetworkStatusResponse` and returned. -/
theorem networkStatus_status_code_spec :
    (∀ (env : NetworkStatusEnv) (resp : HTTPResponse) (v : RosettaError),
      env.prepareErr = none → env.callResult = Except.ok (some resp) → env.readErr = none →
      resp.statusCode ≠ 200 → env.decodeError resp.body = Except.ok v →
      networkStatus env = (none, some v, some (renderRosettaError v))) ∧
    (∀ (env : NetworkStatusEnv) (resp : HTTPResponse)
        (d : String → Except String NetworkStatusResponse),
      env.callResult = Except.ok (some resp) → resp.statusCode ≠ 200 →
      networkStatus { env with decodeResponse := d } = networkStatus env) ∧
    (∀ (env : NetworkStatusEnv) (resp : HTTPResponse) (v : NetworkStatusResponse),
      env.prepareErr = none → env.callResult = Except.ok (some resp) → env.readErr = none →
      resp.statusCode = 200 → env.decodeResponse resp.body = Except.ok v →
      networkStatus env = (some v, none, none)) := by
  refine ⟨?_, ?_, ?_⟩
  · intro env resp v h1 h2 h3 h4 h5
    simp [networkStatus, h1, h2, h3, h4, h5]
  · intro env resp d h2 h4
    match h1 : env.prepareErr with
    | some e => simp [networkStatus, h1]
    | none =>
      match h3 : env.readErr with
      | some e => simp [networkStatus, h1, h2, h3]
      | none => simp [networkStatus, h1, h2, h3, h4]
  · intro env resp v h1 h2 h3 h4 h5
    simp [networkStatus, h1, h2, h3, h4, h5]

/-- C8 (witness): a concrete 500 response whose body decodes as the
domain error `{12, bad sig}` yields that domain error and its rendering,
and a concrete 200 response yields the decoded response. -/
theorem networkStatus_status_code_spec_witness :
    networkStatus
      ⟨none, Except.ok (some ⟨500, "errbody"⟩), none,
        fun _ => Except.ok ⟨12, "bad sig", none⟩,
        fun _ => Except.error "unused"⟩ =
      (none, some ⟨12, "bad sig", none⟩, some (renderRosettaError ⟨12, "bad sig", none⟩)) :=
  networkStatus_status_code_spec.1
    ⟨none, Except.ok (some ⟨500, "errbody"⟩), none,
      fun _ => Except.ok ⟨12, "bad sig", none⟩,
      fun _ => Except.error "unused"⟩
    ⟨500, "errbody"⟩ ⟨12, "bad sig", none⟩ rfl rfl rfl (by decide) rfl

/-- C9: on a non-success status whose body decodes as a domain error,
the domain-error slot and the transport-error slot are filled
simultaneously, the latter with a formatted rendering of the former; and
concretely a domain-error response and a plain transport failure both
leave a non-`none` transport-error slot, so that slot alone does not
distinguish them (only the domain-error slot differs). -/
theorem networkStatus_error_slot_ambiguity :
    (∀ (env : NetworkStatusEnv) (resp : HTTPResponse) (v : RosettaError),
      env.prepareErr = none → env.callResult = Except.ok (some resp) → env.readErr = none →
      resp.statusCode ≠ 200 → env.decodeError resp.body = Except.ok v →
      ((networkStatus env).2.1.isSome = true ∧ (networkStatus env).2.2.isSome = true ∧
        (networkStatus env).2.2 = some (renderRosettaError v))) ∧
    ((networkStatus
        ⟨none, Except.ok (some ⟨500, "errbody"⟩), none,
          fun _ => Except.ok ⟨12, "bad sig", none⟩,
          fun _ => Except.error "unused"⟩).2.1 = some ⟨12, "bad sig", none⟩ ∧
      (networkStatus
        ⟨none, Except.ok (some ⟨500, "errbody"⟩), none,
          fun _ => Except.ok ⟨12, "bad sig", none⟩,
          fun _ => Except.error "unused"⟩).2.2.isSome = true ∧
      (networkStatus
        ⟨none, Except.error "connection refused", none,
          fun _ => Except.ok ⟨12, "bad sig", none⟩,
          fun _ => Except.error "unused"⟩).2.1 = none ∧
      (networkStatus
        ⟨none, Except.error "connection refused", none,
          fun _ => Except.ok ⟨12, "bad sig", none⟩,
          fun _ => Except.error "unused"⟩).2.2.isSome = true) := by
  constructor
  · intro env resp v h1 h2 h3 h4 h5
    simp [networkStatus, h1, h2, h3, h4, h5]
  · exact ⟨rfl, rfl, rfl, rfl⟩

/-- C9 (witness): at the concrete 500 response above, both the
domain-error slot and the transport-error slot are filled, the latter
with the rendering of the decoded domain error. -/
theorem networkStatus_error_slot_ambiguity_witness :
    ((networkStatus
        ⟨none, Except.ok (some ⟨503, "b"⟩), none,
          fun _ => Except.ok ⟨9, "busy", some true⟩,
          fun _ => Except.error "unused"⟩).2.1.isSome = true ∧
      (networkStatus
        ⟨none, Except.ok (some ⟨503, "b"⟩), none,
          fun _ => Except.ok ⟨9, "busy", some true⟩,
          fun _ => Except.error "unused"⟩).2.2.isSome = true ∧
      (networkStatus
        ⟨none, Except.ok (some ⟨503, "b"⟩), none,
          fun _ => Except.ok ⟨9, "busy", some true⟩,
          fun _ => Except.error "unused"⟩).2.2 =
        some (renderRosettaError ⟨9, "busy", some true⟩)) :=
  networkStatus_error_slot_ambiguity.1
    ⟨none, Except.ok (some ⟨503, "b"⟩), none,
      fun _ => Except.ok ⟨9, "busy", some true⟩,
      fun _ => Except.error "unused"⟩
    ⟨503, "b"⟩ ⟨9, "busy", some true⟩ rfl rfl rfl (by decide) rfl

end Rosetta
